import Mathlib

/-!
Shallow embedding of scripts/validate_architecture.py: layer classification, import
extraction, rule evaluation and directory validation, with theorems
settling the specification claims about them.
-/

namespace ArchCheck

/-! ### String helpers

Python string operations used by the script, modelled on the character list
of a Lean String: substring containment (the Python in operator on str),
endswith, startswith, and split on a character. -/

/-- The Python expression pat in s (substring containment), on char lists. -/
def isSubstring (pat : List Char) : List Char → Bool
  | [] => pat.isEmpty
  | c :: rest => pat.isPrefixOf (c :: rest) || isSubstring pat rest

/-- Python s.find style containment: pat appears contiguously in s. -/
def strContains (s pat : String) : Bool := isSubstring pat.data s.data

/-- Python s.endswith pat. -/
def strEndsWith (s pat : String) : Bool := pat.data.isSuffixOf s.data

/-- Python s.startswith pat. -/
def strStartsWith (s pat : String) : Bool := pat.data.isPrefixOf s.data

/-- Helper of strSplit: accumulates the current chunk in reverse. -/
def splitCharAux (c : Char) : List Char → List Char → List (List Char)
  | [], acc => [acc.reverse]
  | x :: xs, acc =>
    if x == c then acc.reverse :: splitCharAux c xs []
    else splitCharAux c xs (x :: acc)

/-- Python s.split(c) for a one-character separator c. -/
def strSplit (s : String) (c : Char) : List String :=
  (splitCharAux c s.data []).map (fun l => { data := l })

/-! ### Data model (lines 22-40 of the script) -/

/-- The Violation dataclass of the script. -/
structure Violation where
  file : String
  line : Nat
  layer : String
  import_name : String
  reason : String
deriving DecidableEq, Repr

/-- FORBIDDEN_FRAMEWORKS dict; the total function view matches the
FORBIDDEN_FRAMEWORKS.get(layer, []) lookups in check_file. -/
def FORBIDDEN_FRAMEWORKS : String → List String
  | "domain" => ["fastapi", "flask", "sqlalchemy", "pydantic", "django", "celery", "redis"]
  | "application" => ["fastapi", "flask", "django"]
  | _ => []

/-- FORBIDDEN_LAYERS dict; the total function view matches the
FORBIDDEN_LAYERS.get(layer, []) lookups in check_file. -/
def FORBIDDEN_LAYERS : String → List String
  | "domain" => ["application", "infrastructure", "presentation"]
  | "application" => ["infrastructure", "presentation"]
  | "infrastructure" => ["presentation"]
  | _ => []

/-! ### Layer classifier (get_layer, lines 43-48) -/

/-- The candidate layers in the iteration order of get_layer. -/
def layerNames : List String := ["domain", "application", "infrastructure", "presentation"]

/-- The match test of one loop iteration of get_layer: the Python condition
"/{layer}/" in filepath or filepath.endswith("/{layer}"). -/
def layer_hit (layer filepath : String) : Bool :=
  strContains filepath ("/" ++ layer ++ "/") || strEndsWith filepath ("/" ++ layer)

/-- get_layer: first layer of layerNames whose condition holds, else none. -/
def get_layer (filepath : String) : Option String :=
  layerNames.find? (fun layer => layer_hit layer filepath)

/-! ### Import extractor (extract_imports, lines 51-65)

A Python file is modelled by its parse outcome: ast.parse either raises
(SyntaxError or UnicodeDecodeError), modelled as ParseResult.failure, or
yields a tree; ast.walk enumerates the nodes of that tree, and only
ast.Import and ast.ImportFrom nodes matter to the extractor, so a
successful parse is modelled as the sequence of nodes in walk order, with
every other node kind collapsed to AstNode.other. An ast.ImportFrom node
carries its relative-import level (0 for absolute imports) and optional
module name, exactly as the ast module represents from-imports: for
"from ..pkg import x" the module field is "pkg" and level is 2, and for
"from . import x" the module field is None. -/

/-- One node as seen by ast.walk, restricted to the fields the script reads. -/
inductive AstNode where
  | importStmt (names : List String) (lineno : Nat)
  | importFrom (level : Nat) (module : Option String) (lineno : Nat)
  | other
deriving DecidableEq, Repr

/-- Outcome of ast.parse(filepath.read_text()). -/
inductive ParseResult where
  | failure
  | success (walkNodes : List AstNode)
deriving DecidableEq, Repr

/-- Edges contributed by a single walked node (the loop body, lines 60-64):
each alias of an ast.Import yields one edge; an ast.ImportFrom yields an
edge when node.module is truthy (not None and not empty). -/
def extractNode : AstNode → List (String × Nat)
  | .importStmt names line => names.map (fun n => (n, line))
  | .importFrom _ (some m) line => if m = "" then [] else [(m, line)]
  | .importFrom _ none _ => []
  | .other => []

/-- extract_imports: empty on parse failure, else all edges in walk order. -/
def extract_imports : ParseResult → List (String × Nat)
  | .failure => []
  | .success nodes => nodes.flatMap extractNode

/-! ### Rule evaluator (the loop body of check_file, lines 80-100) -/

/-- The Violation built at lines 83-89 for a forbidden framework. -/
def violFw (path : String) (line : Nat) (layer module framework : String) : Violation :=
  { file := path, line := line, layer := layer, import_name := module
    reason := layer ++ " cannot import framework \x27" ++ framework ++ "\x27" }

/-- The Violation built at lines 94-100 for a forbidden layer. -/
def violLayer (path : String) (line : Nat) (layer module forbidden : String) : Violation :=
  { file := path, line := line, layer := layer, import_name := module
    reason := layer ++ " cannot import from " ++ forbidden }

/-- The inner framework loop (lines 81-89): for each forbidden framework,
emit a Violation when module == framework or module.startswith(framework + "."). -/
def checkFrameworks (fws : List String) (path layer module : String) (line : Nat) :
    List Violation :=
  fws.flatMap (fun framework =>
    if module = framework ∨ strStartsWith module (framework ++ ".") = true then
      [violFw path line layer module framework]
    else [])

/-- The inner layer loop (lines 92-100): for each forbidden layer, emit a
Violation when it is one of the dot-separated segments of module. -/
def checkLayers (fls : List String) (path layer module : String) (line : Nat) :
    List Violation :=
  fls.flatMap (fun forbidden_layer =>
    if forbidden_layer ∈ strSplit module '.' then
      [violLayer path line layer module forbidden_layer]
    else [])

/-- All violations one import edge contributes: the framework loop runs
first, then the layer loop, appending to the same list. -/
def evalEdge (fws fls : List String) (path layer module : String) (line : Nat) :
    List Violation :=
  checkFrameworks fws path layer module line ++ checkLayers fls path layer module line

/-- check_file (lines 68-102): classify, return [] when unclassified, else
evaluate both rule tables against every extracted import edge in order. -/
def check_file (path : String) (src : ParseResult) : List Violation :=
  match get_layer path with
  | none => []
  | some layer =>
    (extract_imports src).flatMap (fun edge =>
      evalEdge (FORBIDDEN_FRAMEWORKS layer) (FORBIDDEN_LAYERS layer)
        path layer edge.1 edge.2)

/-! ### Tree walker (validate, lines 105-112)

The filesystem under src_dir is modelled as the list of its regular files,
each a path paired with its parse outcome, in the traversal order of
src_dir.rglob. rglob("*.py") keeps exactly the files whose name ends in
".py"; the loop then skips any path containing "__pycache__" as a
substring. -/

/-- True when the walk analyses the file: its path ends in ".py" (the rglob
pattern) and does not contain "__pycache__" (line 109, a substring test). -/
def keptByWalk (path : String) : Bool :=
  strEndsWith path ".py" && !(strContains path "__pycache__")

/-- validate: concatenated check_file results over all analysed files. -/
def validate (files : List (String × ParseResult)) : List Violation :=
  (files.filter (fun f => keptByWalk f.1)).flatMap (fun f => check_file f.1 f.2)

/-! ### The claim C1 spec-side predicate -/

/-- Modelled from the spec: claim C1 says a path matches a layer when the
layer appears as a full path segment (bounded by path separators) anywhere
in the path, or the final segment equals the layer; appearing among the
slash-separated segments captures both disjuncts. For comparison with
get_layer only; the code itself is embedded above. -/
def spec_segment_match (layer path : String) : Bool :=
  decide (layer ∈ strSplit path '/')

/-! ### Helper lemmas -/

/-- Two strings with the same character data are equal. -/
lemma string_data_inj {a b : String} (h : a.data = b.data) : a = b := by
  cases a; cases b; exact congrArg String.mk h

/-- violFw determines its framework argument: the reason string embeds it
between two fixed delimiters. -/
lemma violFw_inj {path layer module F G : String} {line : Nat}
    (h : violFw path line layer module F = violFw path line layer module G) : F = G := by
  have hr := congrArg Violation.reason h
  simp only [violFw] at hr
  have hd := congrArg String.data hr
  simp only [String.data_append] at hd
  exact string_data_inj (List.append_cancel_left (List.append_cancel_right hd))

/-- violLayer determines its forbidden-layer argument: the reason string
ends with it after a fixed delimiter. -/
lemma violLayer_inj {path layer module F G : String} {line : Nat}
    (h : violLayer path line layer module F = violLayer path line layer module G) : F = G := by
  have hr := congrArg Violation.reason h
  simp only [violLayer] at hr
  have hd := congrArg String.data hr
  simp only [String.data_append] at hd
  exact string_data_inj (List.append_cancel_left hd)

/-! ### Claims -/

/-- Claim C1, counterexample: the claim asserts that a path whose first
segment is a layer name, such as domain/order.py, is classified into that
layer (the layer name is a full path segment there); get_layer returns
none on it, because its condition requires a separator on both sides of
the layer name or a separator right before a trailing layer name. -/
theorem C1_counterexample :
    spec_segment_match "domain" "domain/order.py" = true ∧
    get_layer "domain/order.py" = none := by decide

/-- Claim C1, amended: get_layer returns the first layer, in the order
domain, application, infrastructure, presentation, whose name occurs in
the path surrounded by slashes or as a slash-preceded suffix, and none
when no layer satisfies that condition. -/
theorem C1_classifier_first_match (P : String) :
    (get_layer P = some "domain" ↔ layer_hit "domain" P = true) ∧
    (get_layer P = some "application" ↔
      (layer_hit "domain" P = false ∧ layer_hit "application" P = true)) ∧
    (get_layer P = some "infrastructure" ↔
      (layer_hit "domain" P = false ∧ layer_hit "application" P = false ∧
       layer_hit "infrastructure" P = true)) ∧
    (get_layer P = some "presentation" ↔
      (layer_hit "domain" P = false ∧ layer_hit "application" P = false ∧
       layer_hit "infrastructure" P = false ∧ layer_hit "presentation" P = true)) ∧
    (get_layer P = none ↔
      (layer_hit "domain" P = false ∧ layer_hit "application" P = false ∧
       layer_hit "infrastructure" P = false ∧ layer_hit "presentation" P = false)) := by
  cases h1 : layer_hit "domain" P <;>
    cases h2 : layer_hit "application" P <;>
      cases h3 : layer_hit "infrastructure" P <;>
        cases h4 : layer_hit "presentation" P <;>
          simp_all [get_layer, layerNames, List.find?]

/-- Claim C2, counterexample: the claim asserts that a file is excluded
only when the build-cache name is a full directory segment, so that
foo__pycache__bar.py is still analysed; the walk tests substring
containment, so validate skips the file even though check_file would
report a violation for it. -/
theorem C2_counterexample :
    validate [("src/domain/foo__pycache__bar.py",
        ParseResult.success [AstNode.importFrom 0 (some "fastapi") 1])] = [] ∧
    check_file "src/domain/foo__pycache__bar.py"
        (ParseResult.success [AstNode.importFrom 0 (some "fastapi") 1]) ≠ [] := by
  decide

/-- Claim C2, amended: validate analyses exactly the .py-suffixed files
whose path does not contain the build-cache name as a substring: a file
containing it anywhere in its path is skipped, a non-.py file is skipped,
and every other file contributes its check_file violations in order. -/
theorem C2_walk_filter (p : String) (src : ParseResult) (fs : List (String × ParseResult)) :
    (strContains p "__pycache__" = true → validate ((p, src) :: fs) = validate fs) ∧
    (strEndsWith p ".py" = false → validate ((p, src) :: fs) = validate fs) ∧
    (strEndsWith p ".py" = true → strContains p "__pycache__" = false →
      validate ((p, src) :: fs) = check_file p src ++ validate fs) := by
  refine ⟨fun h => ?_, fun h => ?_, fun h1 h2 => ?_⟩ <;>
    simp_all [validate, keptByWalk, List.filter_cons]

/-- Claim C2, witness for the amended theorem at concrete inputs. -/
theorem C2_walk_filter_witness :
    validate [("src/__pycache__/m.py", ParseResult.failure)] = [] ∧
    validate [("src/domain/a.py", ParseResult.failure)] =
      check_file "src/domain/a.py" ParseResult.failure ++ [] := by
  constructor
  · exact ((C2_walk_filter "src/__pycache__/m.py" ParseResult.failure []).1 (by decide)).trans rfl
  · exact (C2_walk_filter "src/domain/a.py" ParseResult.failure []).2.2 (by decide) (by decide)

/-- Claim C3, counterexample: with alpha among the forbidden frameworks
and beta among the forbidden layers, the edge alpha.beta.module need not
yield exactly two Violations: a second forbidden framework alpha.beta
also matches, so three Violations are emitted. -/
theorem C3_counterexample :
    ("alpha" ∈ (["alpha", "alpha.beta"] : List String)) ∧
    ("beta" ∈ (["beta"] : List String)) ∧
    (evalEdge ["alpha", "alpha.beta"] ["beta"] "f.py" "domain" "alpha.beta.module" 1).length = 3 := by
  decide

/-- Claim C3, amended: for a layer whose forbidden-frameworks entry is
exactly [alpha] and whose forbidden-layers entry is exactly [beta], the
edge alpha.beta.module yields exactly two Violations, the framework one
(reason: layer cannot import framework alpha) before the layer one
(reason: layer cannot import from beta); both checks run, neither
suppresses the other. -/
theorem C3_both_rules (layer path : String) (line : Nat) :
    evalEdge ["alpha"] ["beta"] path layer "alpha.beta.module" line =
      [violFw path line layer "alpha.beta.module" "alpha",
       violLayer path line layer "alpha.beta.module" "beta"] := by
  rfl

/-- Claim C4: for a forbidden framework F of the active table, the
framework check emits the corresponding Violation precisely when
the imported name equals F or starts with F followed by a dot; no bare
substring or bare prefix ever matches. -/
theorem C4_framework_boundary (fws : List String) (path layer module : String) (line : Nat)
    (F : String) (hF : F ∈ fws) :
    violFw path line layer module F ∈ checkFrameworks fws path layer module line ↔
      (module = F ∨ strStartsWith module (F ++ ".") = true) := by
  constructor
  · intro h
    unfold checkFrameworks at h
    rw [List.mem_flatMap] at h
    obtain ⟨G, hG, hmem⟩ := h
    by_cases hc : module = G ∨ strStartsWith module (G ++ ".") = true
    · rw [if_pos hc, List.mem_singleton] at hmem
      have hFG : F = G := violFw_inj hmem
      subst hFG
      exact hc
    · rw [if_neg hc] at hmem
      exact absurd hmem (List.not_mem_nil _)
  · intro h
    unfold checkFrameworks
    rw [List.mem_flatMap]
    exact ⟨F, hF, by rw [if_pos h]; exact List.mem_singleton_self _⟩

/-- Claim C4, witness: with forbidden framework alpha, the import named
alphabet produces no framework Violation. -/
theorem C4_framework_boundary_witness :
    violFw "f.py" 1 "domain" "alphabet" "alpha" ∉
      checkFrameworks ["alpha"] "f.py" "domain" "alphabet" 1 := by
  intro h
  rcases (C4_framework_boundary ["alpha"] "f.py" "domain" "alphabet" 1 "alpha"
      (by decide)).mp h with h1 | h2
  · exact absurd h1 (by decide)
  · exact absurd h2 (by decide)

/-- Claim C5: for a forbidden layer FL of the active table, the
layer-direction check emits the corresponding Violation precisely when FL
equals one of the dot-separated segments of the imported name; substrings
of a segment never match. -/
theorem C5_layer_segment (fls : List String) (path layer module : String) (line : Nat)
    (FL : String) (hFL : FL ∈ fls) :
    violLayer path line layer module FL ∈ checkLayers fls path layer module line ↔
      FL ∈ strSplit module '.' := by
  constructor
  · intro h
    unfold checkLayers at h
    rw [List.mem_flatMap] at h
    obtain ⟨G, hG, hmem⟩ := h
    by_cases hc : G ∈ strSplit module '.'
    · rw [if_pos hc, List.mem_singleton] at hmem
      have hFG : FL = G := violLayer_inj hmem
      subst hFG
      exact hc
    · rw [if_neg hc] at hmem
      exact absurd hmem (List.not_mem_nil _)
  · intro h
    unfold checkLayers
    rw [List.mem_flatMap]
    exact ⟨FL, hFL, by rw [if_pos h]; exact List.mem_singleton_self _⟩

/-- Claim C5, witness: with forbidden layer infrastructure, the import
named infrastructurex.module produces no layer Violation. -/
theorem C5_layer_segment_witness :
    violLayer "f.py" 1 "application" "infrastructurex.module" "infrastructure" ∉
      checkLayers ["infrastructure"] "f.py" "application" "infrastructurex.module" 1 := by
  intro h
  have := (C5_layer_segment ["infrastructure"] "f.py" "application"
      "infrastructurex.module" 1 "infrastructure" (by decide)).mp h
  exact absurd this (by decide)

/-- Claim C6: a parse failure yields no import edges, the file it came
from contributes no Violations, and removing such a file from the walk
leaves the result of validate unchanged, so the rest of the run proceeds
as if the file had no imports. -/
theorem C6_parse_tolerance (p : String) (fs : List (String × ParseResult)) :
    extract_imports ParseResult.failure = [] ∧
    check_file p ParseResult.failure = [] ∧
    validate ((p, ParseResult.failure) :: fs) = validate fs := by
  have hcf : ∀ q : String, check_file q ParseResult.failure = [] := by
    intro q
    cases h : get_layer q <;> simp [check_file, h, extract_imports]
  refine ⟨rfl, hcf p, ?_⟩
  by_cases hk : keptByWalk p = true
  · simp [validate, List.filter_cons, hk, hcf]
  · simp [validate, List.filter_cons, hk]

/-- Claim C7: a root whose single file src/domain/order.py imports
fastapi at line 3 validates to exactly one Violation carrying that file,
line 3, layer domain, import name fastapi, and the framework reason. -/
theorem C7_end_to_end :
    validate [("src/domain/order.py",
        ParseResult.success [AstNode.importFrom 0 (some "fastapi") 3])] =
      [{ file := "src/domain/order.py", line := 3, layer := "domain",
         import_name := "fastapi",
         reason := "domain cannot import framework \x27fastapi\x27" }] := by
  decide

/-- Claim C8: a file whose path matches no known layer produces zero
Violations, whatever its parse outcome and imports. -/
theorem C8_unclassified_skipped (p : String) (src : ParseResult)
    (h : get_layer p = none) : check_file p src = [] := by
  simp [check_file, h]

/-- Claim C8, witness: a helpers file outside every layer directory, with
a framework import, produces no Violations. -/
theorem C8_unclassified_skipped_witness :
    check_file "src/utils/helpers.py"
      (ParseResult.success [AstNode.importStmt ["fastapi"] 1]) = [] :=
  C8_unclassified_skipped _ _ (by decide)

/-- Claim C9: an import statement listing several module names yields one
edge per listed name, each carrying the line number of that statement. -/
theorem C9_multi_name_import (names : List String) (line : Nat) :
    extract_imports (ParseResult.success [AstNode.importStmt names line]) =
      names.map (fun n => (n, line)) ∧
    extract_imports (ParseResult.success [AstNode.importStmt ["a", "b"] 5]) =
      [("a", 5), ("b", 5)] := by
  constructor
  · simp [extract_imports, extractNode]
  · rfl

/-- Claim C10: a from-import carrying a module name yields an edge named
after the dots regardless of its relative level, a from-import with no
module name yields no edge, and a relative import of a forbidden layer
therefore produces a Violation. -/
theorem C10_relative_import (lvl : Nat) (m : String) (line : Nat) (hm : m ≠ "") :
    extract_imports (ParseResult.success [AstNode.importFrom lvl (some m) line]) =
      [(m, line)] ∧
    extract_imports (ParseResult.success [AstNode.importFrom lvl none line]) = [] ∧
    check_file "src/domain/svc.py"
        (ParseResult.success [AstNode.importFrom 1 (some "infrastructure") 2]) =
      [violLayer "src/domain/svc.py" 2 "domain" "infrastructure" "infrastructure"] := by
  refine ⟨?_, ?_, ?_⟩
  · simp [extract_imports, extractNode, hm]
  · simp [extract_imports, extractNode]
  · decide

/-- Claim C10, witness for the theorem at concrete inputs. -/
theorem C10_relative_import_witness :
    extract_imports (ParseResult.success [AstNode.importFrom 2 (some "infrastructure") 4]) =
      [("infrastructure", 4)] :=
  (C10_relative_import 2 "infrastructure" 4 (by decide)).1

end ArchCheck
